import Mathlib

/-!
Verification of the Nursing transcript-analyzer repository.

The repository contains three Streamlit app variants:
* `nursing_gpa_app.py` — GPA utilities (`calculate_gpa`, `calculate_last_60_gpa`,
  `calculate_prereq_gpa`), a PDF course extractor, and an eligibility recommendation;
* `nursing_gpa_app(1).py` — same GPA utilities, plus a term-header-aware line parser
  (`term_pattern`, `course_patterns`) and an LLM fallback;
* `app.py` — a parser-strategy dispatcher (`parse_courses_from_text` over
  `parse_pima_format`, `parse_maricopa_format`, `parse_nau_transfer_format`),
  a different grade scale `GRADE_TO_POINTS`, and summary GPA computations.

Numeric values are embedded as rationals (`ℚ`); Python `datetime` values are embedded
as integers in `yyyymmdd` form (only their ordering is used).  Python code that can
raise an exception is embedded with `Option`/`Except`.
-/

deriving instance DecidableEq for Except

/-- One course record, as the dicts built by both `nursing_gpa_app` variants:
keys `course_code`, `title`, `credits`, `grade`, `date`, `matches`. -/
structure Course where
  course_code : String
  title : String
  credits : ℚ
  grade : String
  date : Int
  matchesField : Option String
deriving DecidableEq

/-- The table `GRADE_POINTS` from `nursing_gpa_app.py` (identical in `nursing_gpa_app(1).py`). -/
def GRADE_POINTS : List (String × ℚ) :=
  [("A", 4.0), ("A-", 3.7), ("B+", 3.3), ("B", 3.0),
   ("B-", 2.7), ("C+", 2.3), ("C", 2.0), ("C-", 1.7),
   ("D+", 1.3), ("D", 1.0), ("F", 0.0)]

/-- Python's `round(x, 2)`: round to two decimal places.  (Ties, which no claim
exercises, are rounded here half-up rather than half-to-even.) -/
def round2 (x : ℚ) : ℚ := (round (x * 100) : ℤ) / 100

/-- The accumulation loop of `calculate_gpa`: threads `total_points` and
`total_credits`, skipping records whose grade is not in `GRADE_POINTS`
(`GRADE_POINTS.get(...)` returning `None`). -/
def gpaLoop : List Course → ℚ → ℚ → ℚ × ℚ
  | [], tp, tc => (tp, tc)
  | c :: rest, tp, tc =>
    match List.lookup c.grade GRADE_POINTS with
    | some g => gpaLoop rest (tp + g * c.credits) (tc + c.credits)
    | none => gpaLoop rest tp tc

/-- Embedding of `calculate_gpa` from `nursing_gpa_app.py` lines 18–26: credit-weighted mean of
quality points over records with a resolvable grade; `None` when `total_credits`
is falsy (zero). -/
def calculate_gpa (courses : List Course) : Option ℚ :=
  let r := gpaLoop courses 0 0
  if r.2 ≠ 0 then some (round2 (r.1 / r.2)) else none

/-- Python `sorted(courses, key=lambda x: x['date'], reverse=True)`: stable sort, most
recent date first, ties kept in original order.  (Insertion sort with the total
preorder `b.date ≤ a.date` produces exactly this stable descending order.) -/
def sortByDateDesc (courses : List Course) : List Course :=
  courses.insertionSort (fun a b => b.date ≤ a.date)

/-- The loop body of `calculate_last_60_gpa`.  Python indexes
`GRADE_POINTS[course['grade']]` directly, so an unresolvable grade raises
`KeyError`; that is the `none` outcome here.  Returns `(total_credits,
total_points)` on normal exit. -/
def last60Loop : List Course → ℚ → ℚ → Option (ℚ × ℚ)
  | [], tc, tp => some (tc, tp)
  | c :: rest, tc, tp =>
    match List.lookup c.grade GRADE_POINTS with
    | none => none
    | some g =>
      if tc + c.credits ≤ 60 then
        last60Loop rest (tc + c.credits) (tp + g * c.credits)
      else
        some (60, tp + g * c.credits * ((60 - tc) / c.credits))

/-- Embedding of `calculate_last_60_gpa` from `nursing_gpa_app.py` lines 28–42.
`Except.error ()` is the Python `KeyError` on an unresolvable grade;
`Except.ok none` is the Python `None` result (window not exactly filled). -/
def calculate_last_60_gpa (courses : List Course) : Except Unit (Option ℚ) :=
  match last60Loop (sortByDateDesc courses) 0 0 with
  | none => .error ()
  | some (tc, tp) => .ok (if tc = 60 then some (round2 (tp / 60)) else none)

/-- Python `course.get('matches') in matched_prereqs` for a list of strings:
`None` is never an element of the (string) list. -/
def matchesPrereq (c : Course) (matched : List String) : Bool :=
  match c.matchesField with
  | some m => m ∈ matched
  | none => false

/-- The accumulation loop of `calculate_prereq_gpa`. -/
def prereqLoop (matched : List String) : List Course → ℚ → ℚ → ℚ × ℚ
  | [], tp, tc => (tp, tc)
  | c :: rest, tp, tc =>
    if matchesPrereq c matched then
      match List.lookup c.grade GRADE_POINTS with
      | some g => prereqLoop matched rest (tp + g * c.credits) (tc + c.credits)
      | none => prereqLoop matched rest tp tc
    else prereqLoop matched rest tp tc

/-- Embedding of `calculate_prereq_gpa` from `nursing_gpa_app.py` lines 44–53. -/
def calculate_prereq_gpa (courses : List Course) (matched : List String) : Option ℚ :=
  let r := prereqLoop matched courses 0 0
  if r.2 ≠ 0 then some (round2 (r.1 / r.2)) else none

/-- The placeholder prerequisite list both `nursing_gpa_app` variants pass to
`calculate_prereq_gpa`. -/
def prereqsPlaceholder : List String :=
  ["Anatomy & Physiology I", "Anatomy & Physiology II", "Microbiology",
   "Chemistry", "Nutrition", "Statistics", "Human Growth & Development"]

/-- Sum of credits over a course list. -/
def totalCredits (courses : List Course) : ℚ := (courses.map (·.credits)).sum

/-- Sum of quality points over a course list, reading an unresolvable grade as 0
(used only under a hypothesis that every grade resolves). -/
def pointsSum (courses : List Course) : ℚ :=
  (courses.map (fun c => ((List.lookup c.grade GRADE_POINTS).getD 0) * c.credits)).sum

/-- Credit-denominator as `calculate_gpa` accumulates it: only records with a
resolvable grade contribute. -/
def resolvedCredits (courses : List Course) : ℚ :=
  (courses.filterMap
    (fun c => (List.lookup c.grade GRADE_POINTS).map (fun _ => c.credits))).sum

/-- Quality-point numerator as `calculate_gpa` accumulates it. -/
def resolvedPoints (courses : List Course) : ℚ :=
  (courses.filterMap
    (fun c => (List.lookup c.grade GRADE_POINTS).map (· * c.credits))).sum

/-- The spec's §4.3 trailing-window quality-point rule, written from the spec's
words for refinement against `calculate_last_60_gpa`: walk the
most-recent-first list with remaining window `W`; a record fitting in the
window contributes fully; the crossing record contributes the fraction
`(remaining window)/credits` of its quality points. -/
def specWindowPoints (W : ℚ) : List Course → ℚ
  | [] => 0
  | c :: rest =>
    let g := (List.lookup c.grade GRADE_POINTS).getD 0
    if c.credits ≤ W then g * c.credits + specWindowPoints (W - c.credits) rest
    else g * c.credits * (W / c.credits)

/-! ### Eligibility recommendation (`nursing_gpa_app.py` lines 136–140)

Python evaluates `cum_gpa and cum_gpa >= 3.0 and last_60 >= 3.0 and prereq_gpa >= 3.0`
left to right with short-circuiting.  `cum_gpa` may be `None` (falsy) or `0.0`
(falsy); but once `cum_gpa >= 3.0` is `True`, a `None` in `last_60` or
`prereq_gpa` reaches `None >= 3.0`, which raises `TypeError`.  `Except.error ()`
models that crash; `Except.ok b` is the displayed verdict. -/

/-- The recommendation condition of `nursing_gpa_app.py` lines 136–140
(identical in `nursing_gpa_app(1).py` lines 193–197). -/
def recommendation (cum last60 prereq : Option ℚ) : Except Unit Bool :=
  match cum with
  | none => .ok false
  | some c =>
    if c = 0 then .ok false
    else if ¬ (3 ≤ c) then .ok false
    else
      match last60 with
      | none => .error ()
      | some l =>
        if ¬ (3 ≤ l) then .ok false
        else
          match prereq with
          | none => .error ()
          | some p => .ok (3 ≤ p)

/-- The app's verdict pipeline: compute the three GPA values (a `KeyError` inside
`calculate_last_60_gpa` aborts everything), then apply the recommendation rule. -/
def eligibility (courses : List Course) (matched : List String) : Except Unit Bool :=
  match calculate_last_60_gpa courses with
  | .error e => .error e
  | .ok last60 => recommendation (calculate_gpa courses) last60 (calculate_prereq_gpa courses matched)

/-! ### The `app.py` variant -/

/-- A row of the `app.py` course table after `parse_courses_from_text`:
columns `Course_Code`, `Title`, `Credits` (numeric), `Grade`, `Grade_Points`. -/
structure Row where
  code : String
  title : String
  credits : ℚ
  grade : String
  gradePoints : ℚ
deriving DecidableEq

/-- The table `GRADE_TO_POINTS` from `app.py` line 26. -/
def GRADE_TO_POINTS : List (String × ℚ) :=
  [("A+", 4.0), ("A", 4.0), ("A-", 3.7), ("B+", 3.3), ("B", 3.0), ("B-", 2.7),
   ("C+", 2.3), ("C", 2.0), ("C-", 1.7), ("D+", 1.3), ("D", 1.0), ("F", 0.0),
   ("P", 0.0), ("TP", 0.0), ("Y", 0.0), ("W", 0.0), ("T", 0.0), ("CR", 0.0)]

/-- Total credits of a selected `app.py` row set. -/
def totalRowCredits (rows : List Row) : ℚ := (rows.map (·.credits)).sum

/-- Total quality points (`Credits × Grade_Points`) of a selected row set. -/
def totalRowPoints (rows : List Row) : ℚ :=
  (rows.map (fun r => r.credits * r.gradePoints)).sum

/-- Embedding of `recent_gpa` from `app.py` lines 297–299 for a nonempty selection:
`total_quality_points / total_credits if total_credits > 0 else 0.0`.
Note the zero-denominator case is coerced to `0.0`, not to an "undefined" value. -/
def recent_gpa (rows : List Row) : ℚ :=
  if 0 < totalRowCredits rows then totalRowPoints rows / totalRowCredits rows else 0

/-! ### A small regular-expression engine

The extraction strategies of `app.py` and `nursing_gpa_app(1).py` are Python
`re` patterns.  They use only: character classes (`[A-Z]`, `\d`, `\s`, `.`,
`[+-]`), bounded and unbounded greedy/lazy repetition (`{m,n}`, `+`, `*`,
`?`, `*?`, `+?`), capturing and non-capturing groups, alternation of literal
words, and the MULTILINE anchors `^`/`$`.  The engine below implements exactly
those constructs with Python's leftmost, backtracking, greedy/lazy semantics.
Each pattern of the source is transcribed node by node into an `RE` value. -/

/-- Regular-expression shapes.  `rep lo hi greedy r` is `r{lo,hi}` (with
`hi = none` for unbounded), trying longer matches first when `greedy`.
`grp n r` is capturing group number `n`; `bol`/`eol` are the MULTILINE
`^`/`$` anchors. -/
inductive RE where
  | eps : RE
  | cls : (Char → Bool) → RE
  | seq : RE → RE → RE
  | alt : RE → RE → RE
  | grp : Nat → RE → RE
  | rep : Nat → Option Nat → Bool → RE → RE
  | bol : RE
  | eol : RE

/-- Captured groups: group number paired with the captured characters. -/
abbrev Caps := List (Nat × List Char)

/-- A match outcome: the captures, the character preceding the rest (for `^`),
and the remaining input. -/
abbrev MatchSt := Caps × Option Char × List Char

/-- Backtracking matcher in continuation-passing style.  `prev` is the character
just before the current position (`none` at the start of the text), used by the
MULTILINE `^`; `$` matches at the end of the text or before a newline.  `fuel`
only forces termination; it is chosen large enough in `matchHere` that it never
cuts off a match on the inputs considered. -/
def matchR : Nat → RE → Option Char → List Char → Caps →
    (Option Char → List Char → Caps → Option MatchSt) → Option MatchSt
  | 0, _, _, _, _, _ => none
  | fuel + 1, r, prev, s, caps, k =>
    match r with
    | .eps => k prev s caps
    | .cls p =>
      match s with
      | [] => none
      | c :: rest => if p c then k (some c) rest caps else none
    | .seq a b =>
      matchR fuel a prev s caps (fun p2 s2 c2 => matchR fuel b p2 s2 c2 k)
    | .alt a b =>
      (matchR fuel a prev s caps k).orElse (fun _ => matchR fuel b prev s caps k)
    | .grp n a =>
      matchR fuel a prev s caps
        (fun p2 s2 c2 => k p2 s2 ((n, s.take (s.length - s2.length)) :: c2))
    | .bol => if prev = none ∨ prev = some '\n' then k prev s caps else none
    | .eol =>
      match s with
      | [] => k prev s caps
      | c :: _ => if c = '\n' then k prev s caps else none
    | .rep lo hi greedy a =>
      match lo with
      | m + 1 =>
        matchR fuel a prev s caps (fun p2 s2 c2 =>
          matchR fuel (.rep m (hi.map (· - 1)) greedy a) p2 s2 c2 k)
      | 0 =>
        if hi = some 0 then k prev s caps
        else
          let once := fun (_ : Unit) =>
            matchR fuel a prev s caps (fun p2 s2 c2 =>
              matchR fuel (.rep 0 (hi.map (· - 1)) greedy a) p2 s2 c2 k)
          if greedy then (once ()).orElse (fun _ => k prev s caps)
          else (k prev s caps).orElse once

/-- Try to match `r` exactly at the current position (Python `pattern.match`
when `prev = none`). -/
def matchHere (r : RE) (prev : Option Char) (s : List Char) : Option MatchSt :=
  matchR ((s.length + 2) * 400) r prev s [] (fun p2 s2 c2 => some (c2, p2, s2))

/-- Python `pattern.search`: try each position left to right. -/
def searchFrom (r : RE) : Option Char → List Char → Option MatchSt
  | prev, s =>
    (matchHere r prev s).orElse (fun _ =>
      match s with
      | [] => none
      | c :: rest => searchFrom r (some c) rest)

/-- Python `pattern.findall`: repeated non-overlapping leftmost search,
resuming after each match.  (All patterns in this repository can only match a
nonempty span, so the fuel bound is never the limiting factor.) -/
def findAllGo (r : RE) : Nat → Option Char → List Char → List Caps
  | 0, _, _ => []
  | fuel + 1, prev, s =>
    match searchFrom r prev s with
    | none => []
    | some (caps, p2, s2) => caps :: findAllGo r fuel p2 s2

/-- Python `re.findall` over a string. -/
def findAll (r : RE) (s : String) : List Caps :=
  findAllGo r (s.length + 1) none s.data

/-- Python `re.search` over a string, returning the captures. -/
def searchStr (r : RE) (s : String) : Option Caps :=
  (searchFrom r none s.data).map (·.1)

/-- Python `re.match` over a string (anchored at the start), returning the captures. -/
def matchStr (r : RE) (s : String) : Option Caps :=
  (matchHere r none s.data).map (·.1)

/-- Text of capture group `n` (empty if the group is absent). -/
def capStr (caps : Caps) (n : Nat) : String :=
  String.mk (((caps.find? (fun p => p.1 == n)).map (·.2)).getD [])

/-- Class `[A-Z]`. -/
def cU : RE := .cls (fun c => 'A' ≤ c && c ≤ 'Z')
/-- Class `\d`. -/
def cD : RE := .cls (fun c => '0' ≤ c && c ≤ '9')
/-- Class `\s` (Python: space, tab, newline, carriage return, form feed, vertical tab) -/
def cS : RE := .cls (fun c =>
  c = ' ' || c = '\t' || c = '\n' || c = '\r' || c = '\x0b' || c = '\x0c')
/-- Class `.` (anything but newline). -/
def cDot : RE := .cls (fun c => c ≠ '\n')
/-- Class `[A-F]`. -/
def cAF : RE := .cls (fun c => 'A' ≤ c && c ≤ 'F')
/-- Optional sign `[+-]?`. -/
def pmOpt : RE := .rep 0 (some 1) true (.cls (fun c => c = '+' || c = '-'))

/-- Sequence a list of regular expressions. -/
def seqs : List RE → RE
  | [] => .eps
  | [r] => r
  | r :: rs => .seq r (seqs rs)

/-- A literal word. -/
def strRE (s : String) : RE :=
  seqs (s.data.map (fun c => RE.cls (fun d => d == c)))

/-- The decimal-number shape `\d{a,b}\.\d{f}` used by every credits field. -/
def decimalRE (a b f : Nat) : RE :=
  seqs [.rep a (some b) true cD, .cls (fun c => c == '.'), .rep f (some f) true cD]

/-! ### `app.py` extraction strategies (lines 51–87) -/

/-- A raw captured row before normalization: `Course_Code`, `Title`,
`Credits` (still a string), `Grade`. -/
structure RawRow where
  code : String
  title : String
  creditsStr : String
  grade : String
deriving DecidableEq

/-- The `parse_pima_format` pattern (`app.py` line 52):
`^([A-Z]{2,4}\s+\d{3,4}[A-Z]*)\s+(.*?)\s+(\d{1,2}\.\d{2})\s+([A-Z]{1,2})\s+\d{1,3}\.\d{2}(?:\s+[A-Z])?$`
with `re.MULTILINE`. -/
def pimaPattern : RE := seqs [
  .bol,
  .grp 1 (seqs [.rep 2 (some 4) true cU, .rep 1 none true cS,
                .rep 3 (some 4) true cD, .rep 0 none true cU]),
  .rep 1 none true cS,
  .grp 2 (.rep 0 none false cDot),
  .rep 1 none true cS,
  .grp 3 (decimalRE 1 2 2),
  .rep 1 none true cS,
  .grp 4 (.rep 1 (some 2) true cU),
  .rep 1 none true cS,
  decimalRE 1 3 2,
  .rep 0 (some 1) true (.seq (.rep 1 none true cS) cU),
  .eol]

/-- Embedding of `parse_pima_format` (`app.py` lines 51–55): `findall`, one row per match. -/
def parse_pima_format (text : String) : List RawRow :=
  (findAll pimaPattern text).map (fun caps =>
    ⟨capStr caps 1, capStr caps 2, capStr caps 3, capStr caps 4⟩)

/-- The `parse_maricopa_format` pattern (`app.py` line 58):
`^([A-Z]{3})\s+(\d{3})\s+(.*?)\s+(\d{1,2}\.\d{2})\s+([A-Z])$` with `re.MULTILINE`. -/
def maricopaPattern : RE := seqs [
  .bol,
  .grp 1 (.rep 3 (some 3) true cU),
  .rep 1 none true cS,
  .grp 2 (.rep 3 (some 3) true cD),
  .rep 1 none true cS,
  .grp 3 (.rep 0 none false cDot),
  .rep 1 none true cS,
  .grp 4 (decimalRE 1 2 2),
  .rep 1 none true cS,
  .grp 5 cU,
  .eol]

/-- Embedding of `parse_maricopa_format` (`app.py` lines 57–63): `findall`, then
`Course_Code = Subject + ' ' + Number`. -/
def parse_maricopa_format (text : String) : List RawRow :=
  (findAll maricopaPattern text).map (fun caps =>
    ⟨capStr caps 1 ++ " " ++ capStr caps 2, capStr caps 3, capStr caps 4, capStr caps 5⟩)

/-- The `parse_nau_transfer_format` pattern (`app.py` line 69):
`^\s*([A-Z]{2,4})\s+(\d{3,4}[A-Z]*)\s+(.*?)\s+(\d{1,2}\.\d{2})\s+([A-Z][+-]?)`
with `re.MULTILINE` (no trailing anchor). -/
def nauPattern : RE := seqs [
  .bol,
  .rep 0 none true cS,
  .grp 1 (.rep 2 (some 4) true cU),
  .rep 1 none true cS,
  .grp 2 (.seq (.rep 3 (some 4) true cD) (.rep 0 none true cU)),
  .rep 1 none true cS,
  .grp 3 (.rep 0 none false cDot),
  .rep 1 none true cS,
  .grp 4 (decimalRE 1 2 2),
  .rep 1 none true cS,
  .grp 5 (.seq cU pmOpt)]

/-- Embedding of `parse_nau_transfer_format` (`app.py` lines 65–76): split the text on
`"Incoming Course"`; fewer than two blocks means no match; each later block
contributes the first `search` hit, with the title stripped. -/
def parse_nau_transfer_format (text : String) : List RawRow :=
  let blocks := text.splitOn "Incoming Course"
  if blocks.length < 2 then []
  else
    (blocks.drop 1).filterMap (fun block =>
      (searchStr nauPattern block).map (fun caps =>
        ⟨capStr caps 1 ++ " " ++ capStr caps 2, (capStr caps 3).trim,
         capStr caps 4, capStr caps 5⟩))

/-- Digits of a captured numeric field, as a natural number. -/
def digitsToNat (l : List Char) : Nat :=
  l.foldl (fun n c => n * 10 + (c.toNat - '0'.toNat)) 0

/-- Python `float`/`pd.to_numeric` on the `\d+\.\d+`-shaped credit strings. -/
def parseDecimal (s : String) : ℚ :=
  match s.splitOn "." with
  | [a, b] => (digitsToNat a.data : ℚ) + (digitsToNat b.data : ℚ) / ((10 : ℚ) ^ b.length)
  | [a] => (digitsToNat a.data : ℚ)
  | _ => 0

/-- The normalization `parse_courses_from_text` applies to the winning
strategy's rows (`app.py` lines 83–84): numeric credits, and
`Grade_Points = GRADE_TO_POINTS.get(grade)` with missing grades filled as 0
(`.map(GRADE_TO_POINTS).fillna(0)`). -/
def normalizeRow (r : RawRow) : Row :=
  ⟨r.code, r.title, parseDecimal r.creditsStr, r.grade,
   (List.lookup r.grade GRADE_TO_POINTS).getD 0⟩

/-- The strategy list of `parse_courses_from_text` (`app.py` line 79), in its
fixed priority order. -/
def parsersList : List (String → List RawRow) :=
  [parse_pima_format, parse_maricopa_format, parse_nau_transfer_format]

/-- The dispatch loop of `parse_courses_from_text` (`app.py` lines 80–87):
first strategy with a nonempty result wins and is normalized; otherwise an
empty table. -/
def dispatchParsers : List (String → List RawRow) → String → List Row
  | [], _ => []
  | p :: ps, text =>
    match p text with
    | [] => dispatchParsers ps text
    | r :: rs => (r :: rs).map normalizeRow

/-- Embedding of `parse_courses_from_text` (`app.py` lines 78–87). -/
def parse_courses_from_text (text : String) : List Row :=
  dispatchParsers parsersList text

/-! ### `nursing_gpa_app(1).py` transcript-line extraction (lines 99–142)

Dates are embedded as integers `yyyymmdd`; `datetime(2000, 1, 1)` is the
sentinel `20000101`. -/

/-- The sentinel placeholder date `datetime(2000, 1, 1)`. -/
def sentinelDate : Int := 20000101

/-- The month names accepted by `strptime`'s `%B` directive. -/
def monthNames : List (String × Nat) :=
  [("January", 1), ("February", 2), ("March", 3), ("April", 4),
   ("May", 5), ("June", 6), ("July", 7), ("August", 8),
   ("September", 9), ("October", 10), ("November", 11), ("December", 12)]

/-- Python `datetime.strptime(s, "%B %Y")`: a full month name, a space, a year.
`none` is Python's `ValueError` — in particular every `Season Year` term label
(`Fall 2023`, …) fails, because seasons are not month names. -/
def strptimeMonthYear (s : String) : Option Int :=
  match s.splitOn " " with
  | [m, y] =>
    match List.lookup m monthNames, y.toNat? with
    | some mn, some yn => some ((yn : Int) * 10000 + (mn : Int) * 100 + 1)
    | _, _ => none
  | _ => none

/-- The `term_pattern` expression (`nursing_gpa_app(1).py` line 101):
`^(Fall|Spring|Summer|Winter)\s+\d{4}$`. -/
def termPattern : RE := seqs [
  .bol,
  .grp 1 (.alt (strRE "Fall") (.alt (strRE "Spring") (.alt (strRE "Summer") (strRE "Winter")))),
  .rep 1 none true cS,
  .rep 4 (some 4) true cD,
  .eol]

/-- First entry of `course_patterns` (line 103):
`^([A-Z]{3,4})\s+(\d{3})\s+(.+?)\s{2,}(\d\.\d{2})\s+([A-F][+-]?)$` (5 groups). -/
def coursePattern1 : RE := seqs [
  .bol,
  .grp 1 (.rep 3 (some 4) true cU),
  .rep 1 none true cS,
  .grp 2 (.rep 3 (some 3) true cD),
  .rep 1 none true cS,
  .grp 3 (.rep 1 none false cDot),
  .rep 2 none true cS,
  .grp 4 (decimalRE 1 1 2),
  .rep 1 none true cS,
  .grp 5 (.seq cAF pmOpt),
  .eol]

/-- Second entry of `course_patterns` (line 104):
`^([A-Z]{2,4}\s?\d{3})\s+(.+?)\s+(\d\.\d{2})\s+([A-F][+-]?)$` (4 groups). -/
def coursePattern2 : RE := seqs [
  .bol,
  .grp 1 (seqs [.rep 2 (some 4) true cU, .rep 0 (some 1) true cS, .rep 3 (some 3) true cD]),
  .rep 1 none true cS,
  .grp 2 (.rep 1 none false cDot),
  .rep 1 none true cS,
  .grp 3 (decimalRE 1 1 2),
  .rep 1 none true cS,
  .grp 4 (.seq cAF pmOpt),
  .eol]

/-- The record-building `try` block (lines 113–136): extract the fields
according to the pattern's group count, then compute the date —
`strptime(current_term, "%B %Y")` when a term header is active (which raises
for season labels, `none` here), the sentinel otherwise.  A `none` date is the
swallowed exception: the record is dropped and the next pattern is tried. -/
def buildCourse (numGroups : Nat) (caps : Caps) (currentTerm : Option String) :
    Option Course :=
  let fields :=
    if numGroups = 5 then
      some (capStr caps 1 ++ " " ++ capStr caps 2, (capStr caps 3).trim,
            parseDecimal (capStr caps 4), capStr caps 5)
    else if numGroups = 4 then
      some (capStr caps 1, (capStr caps 2).trim,
            parseDecimal (capStr caps 3), capStr caps 4)
    else none
  match fields with
  | none => none
  | some (code, title, credits, grade) =>
    let date :=
      match currentTerm with
      | some t => strptimeMonthYear t
      | none => some sentinelDate
    date.map (fun d => ⟨code, title, credits, grade, d, none⟩)

/-- The loop `for pattern in course_patterns: ...` (lines 108–136): the first pattern
that matches and whose `try` block succeeds produces the record; an exception
(`none` from `buildCourse`) falls through to the next pattern (`continue`). -/
def tryCoursePatterns : List (RE × Nat) → String → Option String → Option Course
  | [], _, _ => none
  | (p, ng) :: ps, l, currentTerm =>
    match matchStr p l with
    | none => tryCoursePatterns ps l currentTerm
    | some caps =>
      match buildCourse ng caps currentTerm with
      | some c => some c
      | none => tryCoursePatterns ps l currentTerm

/-- The list `course_patterns` with their group counts. -/
def coursePatterns : List (RE × Nat) := [(coursePattern1, 5), (coursePattern2, 4)]

/-- The per-line loop (lines 107–136): strip the line; a term-label line sets
`current_term` and produces no record; otherwise try the course patterns. -/
def parseTranscriptLines : List String → Option String → List Course
  | [], _ => []
  | line :: rest, currentTerm =>
    let l := line.trim
    if (matchStr termPattern l).isSome then parseTranscriptLines rest (some l)
    else
      match tryCoursePatterns coursePatterns l currentTerm with
      | some c => c :: parseTranscriptLines rest currentTerm
      | none => parseTranscriptLines rest currentTerm

/-- The regex extraction path of `nursing_gpa_app(1).py` (lines 99–142):
split the text on newlines and run the per-line loop with no active term. -/
def parse_transcript (text : String) : List Course :=
  parseTranscriptLines (text.splitOn "\n") none

/-! ### Concrete inputs used by the claims -/

/-- The spec §8 concrete-scenario text (claim C7). -/
def scenarioText : String :=
  "CHEM 151 General Chemistry I 4.00 A\nMATH 163 Intro Statistics 3.00 B+"

/-- A transcript whose course line follows a `Season Year` term header (claim C8). -/
def headerText : String := "Fall 2023\nCHEM 151 General Chemistry I 4.00 A"

/-- A course whose grade `Z` is not in the grade scale. -/
def zCourse : Course := ⟨"BIO 100", "t", 4, "Z", 20100101, none⟩

/-- A single resolvable course: cumulative GPA is defined (4.0) but the
last-60 and prerequisite GPAs are `None`. -/
def aCourse : Course := ⟨"CHEM 151", "t", 4, "A", 20200101, none⟩

/-- Two courses totalling 70 credits, most recent first after sorting. -/
def demoCourses : List Course :=
  [⟨"A1", "t", 30, "A", 2, none⟩, ⟨"B1", "t", 40, "B", 1, none⟩]

/-- A row whose credits are `0.00`: a selected course set with a zero
denominator (claim C3). -/
def zeroCreditRow : Row := ⟨"XYZ 100", "t", 0, "A", 4⟩

/-- Text matched by both the Pima and the Maricopa strategies (claim C5):
line 1 matches only `parse_pima_format`, line 2 only `parse_maricopa_format`. -/
def twoStrategyText : String := "BIO 201 Anatomy 4.00 A 3.00\nBIO 201 Anatomy 4.00 A"

/-- Text whose single line carries the unrecognized grade token `Z` (claim C6). -/
def zGradeText : String := "BIO 201 Strange 3.00 Z"

/-- The same line with grade `F` instead (claim C6). -/
def fGradeText : String := "BIO 201 Strange 3.00 F"

/-! ## Helper lemmas -/

theorem gpaLoop_eq (l : List Course) :
    ∀ tp tc : ℚ, gpaLoop l tp tc = (tp + resolvedPoints l, tc + resolvedCredits l) := by
  induction l with
  | nil => intro tp tc; simp [gpaLoop, resolvedPoints, resolvedCredits]
  | cons c rest ih =>
    intro tp tc
    cases h : List.lookup c.grade GRADE_POINTS with
    | none =>
      simp only [gpaLoop, h, resolvedPoints, resolvedCredits, List.filterMap_cons] at *
      simp [h, ih]
    | some g =>
      simp only [gpaLoop, h, resolvedPoints, resolvedCredits, List.filterMap_cons] at *
      simp only [h, ih, Option.map_some', List.sum_cons, Prod.mk.injEq]
      constructor <;> ring

theorem calculate_gpa_eq (l : List Course) :
    calculate_gpa l =
      if resolvedCredits l ≠ 0 then some (round2 (resolvedPoints l / resolvedCredits l))
      else none := by
  simp [calculate_gpa, gpaLoop_eq]

theorem resolvedPoints_perm {l₁ l₂ : List Course} (h : l₁.Perm l₂) :
    resolvedPoints l₁ = resolvedPoints l₂ :=
  (h.filterMap _).sum_eq

theorem resolvedCredits_perm {l₁ l₂ : List Course} (h : l₁.Perm l₂) :
    resolvedCredits l₁ = resolvedCredits l₂ :=
  (h.filterMap _).sum_eq

theorem totalCredits_perm {l₁ l₂ : List Course} (h : l₁.Perm l₂) :
    totalCredits l₁ = totalCredits l₂ :=
  (h.map _).sum_eq

theorem sortByDateDesc_perm (l : List Course) : (sortByDateDesc l).Perm l :=
  List.perm_insertionSort _ l

theorem resolved_eq_of_isSome (l : List Course)
    (hres : ∀ c ∈ l, (List.lookup c.grade GRADE_POINTS).isSome) :
    resolvedPoints l = pointsSum l ∧ resolvedCredits l = totalCredits l := by
  induction l with
  | nil => simp [resolvedPoints, resolvedCredits, pointsSum, totalCredits]
  | cons c rest ih =>
    obtain ⟨g, hg⟩ := Option.isSome_iff_exists.mp (hres c (List.mem_cons_self c rest))
    have ih' := ih (fun d hd => hres d (List.mem_cons_of_mem c hd))
    simp only [resolvedPoints, resolvedCredits, pointsSum, totalCredits,
      List.filterMap_cons, List.map_cons, List.sum_cons, hg] at *
    simp [hg, ih'.1, ih'.2]

theorem totalCredits_nonneg (l : List Course) (hpos : ∀ c ∈ l, 0 ≤ c.credits) :
    0 ≤ totalCredits l := by
  refine List.sum_nonneg ?_
  intro x hx
  obtain ⟨c, hc, rfl⟩ := List.mem_map.mp hx
  exact hpos c hc

theorem specWindowPoints_of_total_le (l : List Course) :
    ∀ W : ℚ, (∀ c ∈ l, 0 ≤ c.credits) → totalCredits l ≤ W →
      specWindowPoints W l = pointsSum l := by
  induction l with
  | nil => intro W _ _; simp [specWindowPoints, pointsSum]
  | cons c rest ih =>
    intro W hpos htot
    have hrest : 0 ≤ totalCredits rest :=
      totalCredits_nonneg rest (fun d hd => hpos d (List.mem_cons_of_mem c hd))
    have htc : totalCredits (c :: rest) = c.credits + totalCredits rest := by
      simp [totalCredits]
    have hc : c.credits ≤ W := by rw [htc] at htot; linarith
    have hrest' : totalCredits rest ≤ W - c.credits := by rw [htc] at htot; linarith
    simp only [specWindowPoints, if_pos hc, pointsSum, List.map_cons, List.sum_cons]
    rw [ih (W - c.credits) (fun d hd => hpos d (List.mem_cons_of_mem c hd)) hrest']
    rfl

theorem last60Loop_eq (l : List Course) :
    ∀ tc tp : ℚ, (∀ c ∈ l, (List.lookup c.grade GRADE_POINTS).isSome) →
      (∀ c ∈ l, 0 ≤ c.credits) → tc ≤ 60 →
      last60Loop l tc tp =
        some (min (tc + totalCredits l) 60, tp + specWindowPoints (60 - tc) l) := by
  induction l with
  | nil =>
    intro tc tp _ _ htc
    simp [last60Loop, totalCredits, specWindowPoints, min_eq_left htc]
  | cons c rest ih =>
    intro tc tp hres hpos htc
    obtain ⟨g, hg⟩ := Option.isSome_iff_exists.mp (hres c (List.mem_cons_self c rest))
    have hres' := fun d hd => hres d (List.mem_cons_of_mem c hd)
    have hpos' := fun d hd => hpos d (List.mem_cons_of_mem c hd)
    have hrest : 0 ≤ totalCredits rest := totalCredits_nonneg rest hpos'
    have htcc : totalCredits (c :: rest) = c.credits + totalCredits rest := by
      simp [totalCredits]
    simp only [last60Loop, hg]
    by_cases hif : tc + c.credits ≤ 60
    · rw [if_pos hif, ih (tc + c.credits) (tp + g * c.credits) hres' hpos' hif]
      have hfit : c.credits ≤ 60 - tc := by linarith
      simp only [specWindowPoints, hg, Option.getD_some, if_pos hfit, htcc]
      have e1 : tc + c.credits + totalCredits rest = tc + (c.credits + totalCredits rest) := by ring
      have e2 : 60 - (tc + c.credits) = 60 - tc - c.credits := by ring
      rw [e1, e2]
      congr 1
      ring
    · rw [if_neg hif]
      have hcross : ¬ (c.credits ≤ 60 - tc) := by intro hcon; exact hif (by linarith)
      have hmin : min (tc + totalCredits (c :: rest)) 60 = 60 := by
        rw [htcc]
        exact min_eq_right (by linarith)
      simp only [specWindowPoints, hg, Option.getD_some, if_neg hcross, hmin]

theorem calculate_last_60_gpa_eq (courses : List Course)
    (hres : ∀ c ∈ courses, (List.lookup c.grade GRADE_POINTS).isSome)
    (hpos : ∀ c ∈ courses, 0 ≤ c.credits) :
    calculate_last_60_gpa courses =
      .ok (if min (totalCredits courses) 60 = 60
           then some (round2 (specWindowPoints 60 (sortByDateDesc courses) / 60))
           else none) := by
  have hperm := sortByDateDesc_perm courses
  have hres' : ∀ c ∈ sortByDateDesc courses, (List.lookup c.grade GRADE_POINTS).isSome :=
    fun c hc => hres c (hperm.mem_iff.mp hc)
  have hpos' : ∀ c ∈ sortByDateDesc courses, 0 ≤ c.credits :=
    fun c hc => hpos c (hperm.mem_iff.mp hc)
  have hloop := last60Loop_eq (sortByDateDesc courses) 0 0 hres' hpos' (by norm_num)
  unfold calculate_last_60_gpa
  rw [hloop, totalCredits_perm hperm]
  simp only [zero_add, sub_zero]

theorem prereqLoop_empty_matched (l : List Course) :
    ∀ tp tc : ℚ, prereqLoop [] l tp tc = (tp, tc) := by
  induction l with
  | nil => intro tp tc; simp [prereqLoop]
  | cons c rest ih =>
    intro tp tc
    have hm : matchesPrereq c [] = false := by
      simp only [matchesPrereq]
      cases c.matchesField <;> simp
    simp [prereqLoop, hm, ih]

theorem mem_dispatchParsers {r : Row} :
    ∀ (ps : List (String → List RawRow)) (text : String),
      r ∈ dispatchParsers ps text → ∃ raw, r = normalizeRow raw := by
  intro ps
  induction ps with
  | nil => intro text h; simp [dispatchParsers] at h
  | cons p rest ih =>
    intro text h
    cases hp : p text with
    | nil =>
      simp only [dispatchParsers, hp] at h
      exact ih text h
    | cons a as =>
      simp only [dispatchParsers, hp] at h
      obtain ⟨raw, _, hr⟩ := List.mem_map.mp h
      exact ⟨raw, hr.symm⟩

/-! ## Claim theorems -/

/-- C1. For every course list (the function sorts it most-recent-first
itself) whose grades all resolve and whose credits are nonnegative, the
trailing-60-credit-window GPA is `None` ("undefined") when the total credits
are below 60; when the total is exactly 60 it coincides with the cumulative
GPA over the full set; and when the total is at least 60 the result is the
spec §4.3 fractional-window rule: accumulate the sorted records, weight the
crossing record by `(60 − running_total_before) / credits`, stop when the
window is exactly filled, and divide the window's quality points by 60. -/
theorem trailing_window_gpa_spec (courses : List Course)
    (hres : ∀ c ∈ courses, (List.lookup c.grade GRADE_POINTS).isSome)
    (hpos : ∀ c ∈ courses, 0 ≤ c.credits) :
    (totalCredits courses < 60 → calculate_last_60_gpa courses = .ok none) ∧
    (totalCredits courses = 60 →
      calculate_last_60_gpa courses = .ok (calculate_gpa courses)) ∧
    (60 ≤ totalCredits courses →
      calculate_last_60_gpa courses =
        .ok (some (round2 (specWindowPoints 60 (sortByDateDesc courses) / 60)))) := by
  have heq := calculate_last_60_gpa_eq courses hres hpos
  refine ⟨?_, ?_, ?_⟩
  · intro hlt
    have hmin : min (totalCredits courses) 60 = totalCredits courses :=
      min_eq_left (le_of_lt hlt)
    rw [heq, hmin, if_neg (ne_of_lt hlt)]
  · intro htot
    have hmin : min (totalCredits courses) 60 = 60 := by rw [htot]; exact min_self 60
    rw [heq, hmin, if_pos rfl]
    have hperm := sortByDateDesc_perm courses
    have hres' : ∀ c ∈ sortByDateDesc courses, (List.lookup c.grade GRADE_POINTS).isSome :=
      fun c hc => hres c (hperm.mem_iff.mp hc)
    have hpos' : ∀ c ∈ sortByDateDesc courses, 0 ≤ c.credits :=
      fun c hc => hpos c (hperm.mem_iff.mp hc)
    have hts : totalCredits (sortByDateDesc courses) = 60 := by
      rw [totalCredits_perm hperm, htot]
    have hspec : specWindowPoints 60 (sortByDateDesc courses) =
        pointsSum (sortByDateDesc courses) :=
      specWindowPoints_of_total_le _ 60 hpos' (le_of_eq hts)
    have hsum := resolved_eq_of_isSome (sortByDateDesc courses) hres'
    have hsumo := resolved_eq_of_isSome courses hres
    rw [calculate_gpa_eq, hsumo.2, htot, if_pos (by norm_num)]
    rw [hspec, ← hsum.1, resolvedPoints_perm hperm]
  · intro hge
    have hmin : min (totalCredits courses) 60 = 60 := min_eq_right hge
    rw [heq, hmin, if_pos rfl]

/-- Witness for C1 at a concrete 70-credit list: the window result equals the
spec's fractional rule (here `(4·30 + 3·40·(30/40))/60 = 3.5`). -/
theorem trailing_window_gpa_spec_witness :
    calculate_last_60_gpa demoCourses =
      .ok (some (round2 (specWindowPoints 60 (sortByDateDesc demoCourses) / 60))) :=
  (trailing_window_gpa_spec demoCourses (by decide!) (by decide!)).2.2 (by decide!)

/-- C2. A record with an unresolvable grade (`"Z"`) is silently excluded
from the cumulative and prerequisite GPAs, but `calculate_last_60_gpa` indexes
`GRADE_POINTS[course['grade']]` directly and raises `KeyError` instead of
excluding the record: the code contradicts the documented exclusion rule for
the trailing-window computation. -/
theorem unresolvable_grade_keyerror :
    calculate_gpa [zCourse] = none ∧
    calculate_prereq_gpa [zCourse] prereqsPlaceholder = none ∧
    calculate_last_60_gpa [zCourse] = .error () := by
  refine ⟨by decide!, by decide!, by decide!⟩

/-- C3 counterexample. The `app.py` recent-credits GPA (lines 297–299)
returns `0.0` — not a distinct "undefined" value — when the selected rows'
credit denominator is zero, contradicting the claim that all three GPA
computations report an undefined denominator distinctly. -/
theorem recent_gpa_zero_denominator : recent_gpa [zeroCreditRow] = 0 := by decide!

/-- C3 amended. In the `nursing_gpa_app` variants all three GPA
computations return `None` on an empty denominator (in particular the
prerequisite GPA over an empty matched set), but the `app.py` recent-credits
GPA coerces a zero denominator to `0.0`. -/
theorem undefined_gpa_amended :
    (∀ l : List Course, resolvedCredits l = 0 → calculate_gpa l = none) ∧
    (∀ l : List Course, calculate_prereq_gpa l [] = none) ∧
    (∀ l : List Course, (∀ c ∈ l, (List.lookup c.grade GRADE_POINTS).isSome) →
      (∀ c ∈ l, 0 ≤ c.credits) → totalCredits l < 60 →
      calculate_last_60_gpa l = .ok none) ∧
    recent_gpa [zeroCreditRow] = 0 := by
  refine ⟨?_, ?_, ?_, by decide!⟩
  · intro l hzero
    rw [calculate_gpa_eq, hzero]
    simp
  · intro l
    simp [calculate_prereq_gpa, prereqLoop_empty_matched]
  · intro l hres hpos hlt
    have heq := calculate_last_60_gpa_eq l hres hpos
    rw [heq, min_eq_left (le_of_lt hlt), if_neg (ne_of_lt hlt)]

/-- Witness for C3 at concrete inputs: empty list, a single unmatched course,
and a 4-credit course list below the 60-credit window. -/
theorem undefined_gpa_amended_witness :
    calculate_gpa [] = none ∧
    calculate_prereq_gpa [aCourse] [] = none ∧
    calculate_last_60_gpa [aCourse] = .ok none :=
  ⟨undefined_gpa_amended.1 [] (by decide!),
   undefined_gpa_amended.2.1 [aCourse],
   undefined_gpa_amended.2.2.1 [aCourse] (by decide!) (by decide!) (by decide!)⟩

/-- C4. With a cumulative GPA of 4.0 (≥ 3.0) but undefined trailing-window
and prerequisite GPAs, the recommendation expression
`cum_gpa and cum_gpa >= 3.0 and last_60 >= 3.0 and prereq_gpa >= 3.0`
reaches `None >= 3.0` and raises `TypeError` instead of reporting
"not eligible". -/
theorem eligibility_crash : eligibility [aCourse] prereqsPlaceholder = .error () := by
  decide!

/-- C5. The dispatcher tries the strategies in their fixed order
(Pima, Maricopa, NAU-transfer) and returns exactly the first nonempty
strategy's rows (normalized); later strategies are ignored, nothing is
merged, and if all strategies are empty the table is empty. -/
theorem dispatch_first_match (text : String) :
    (parse_pima_format text ≠ [] →
      parse_courses_from_text text = (parse_pima_format text).map normalizeRow) ∧
    (parse_pima_format text = [] → parse_maricopa_format text ≠ [] →
      parse_courses_from_text text = (parse_maricopa_format text).map normalizeRow) ∧
    (parse_pima_format text = [] → parse_maricopa_format text = [] →
      parse_nau_transfer_format text ≠ [] →
      parse_courses_from_text text = (parse_nau_transfer_format text).map normalizeRow) ∧
    (parse_pima_format text = [] → parse_maricopa_format text = [] →
      parse_nau_transfer_format text = [] → parse_courses_from_text text = []) := by
  refine ⟨?_, ?_, ?_, ?_⟩
  · intro h1
    cases hp : parse_pima_format text with
    | nil => exact absurd hp h1
    | cons a as => simp [parse_courses_from_text, parsersList, dispatchParsers, hp]
  · intro h1 h2
    cases hm : parse_maricopa_format text with
    | nil => exact absurd hm h2
    | cons a as => simp [parse_courses_from_text, parsersList, dispatchParsers, h1, hm]
  · intro h1 h2 h3
    cases hn : parse_nau_transfer_format text with
    | nil => exact absurd hn h3
    | cons a as => simp [parse_courses_from_text, parsersList, dispatchParsers, h1, h2, hn]
  · intro h1 h2 h3
    simp [parse_courses_from_text, parsersList, dispatchParsers, h1, h2, h3]

/-- Witness for C5 on a text matched by two strategies: both the Pima and the
Maricopa patterns produce records, and the dispatcher's output is exactly the
Pima (first) strategy's rows. -/
theorem dispatch_first_match_witness :
    parse_pima_format twoStrategyText ≠ [] ∧
    parse_maricopa_format twoStrategyText ≠ [] ∧
    parse_courses_from_text twoStrategyText =
      (parse_pima_format twoStrategyText).map normalizeRow :=
  ⟨by decide!, by decide!, (dispatch_first_match twoStrategyText).1 (by decide!)⟩

/-- C6 counterexample. In `app.py` the unrecognized grade token `"Z"` is
retained but its `Grade_Points` are filled with `0.0` by `.fillna(0)` — the
same value an `"F"` receives — not marked absent/unresolved, so the two are
indistinguishable in the table. -/
theorem fillna_zero_counterexample :
    List.lookup "Z" GRADE_TO_POINTS = none ∧
    (parse_courses_from_text zGradeText).map (·.grade) = ["Z"] ∧
    (parse_courses_from_text zGradeText).map (·.gradePoints) = [0] ∧
    (parse_courses_from_text fGradeText).map (·.gradePoints) = [0] := by
  refine ⟨by decide!, by decide!, by decide!, by decide!⟩

/-- C6 amended. The `app.py` normalizer retains a record whose grade token
is not in the Grade Scale, but stores quality points `0.0` for it (via
`.fillna(0)`), the same stored value as an `"F"` — the record is not marked
absent and is included, not excluded, in this variant's GPA sums. -/
theorem fillna_zero_amended (text : String) (r : Row)
    (hr : r ∈ parse_courses_from_text text)
    (hg : List.lookup r.grade GRADE_TO_POINTS = none ∨ r.grade = "F") :
    r.gradePoints = 0 := by
  obtain ⟨raw, rfl⟩ := mem_dispatchParsers parsersList text hr
  rcases hg with hnone | hF
  · simp only [normalizeRow] at hnone ⊢
    rw [hnone]
    rfl
  · simp only [normalizeRow] at hF ⊢
    rw [hF]
    decide!

/-- Witness for C6: the `"Z"`-graded row extracted from the concrete text has
stored quality points `0`. -/
theorem fillna_zero_amended_witness : (⟨"BIO 201", "Strange", 3, "Z", 0⟩ : Row).gradePoints = 0 :=
  fillna_zero_amended zGradeText _ (by decide!) (Or.inl (by decide!))

/-- C7 counterexample. On the spec's two-line scenario text the cumulative
GPA is `(4·4.0 + 3·3.3)/7 = 25.9/7 = 3.70` exactly, not the claimed `3.69`. -/
theorem scenario_gpa_counterexample :
    calculate_gpa (parse_transcript scenarioText) ≠ some (369/100) := by decide!

/-- C7 amended. The scenario text yields exactly 2 records, both dated with
the sentinel epoch, and a cumulative GPA of 3.70. -/
theorem scenario_gpa_amended :
    (parse_transcript scenarioText).length = 2 ∧
    (∀ r ∈ parse_transcript scenarioText, r.date = sentinelDate) ∧
    calculate_gpa (parse_transcript scenarioText) = some (37/10) := by
  refine ⟨by decide!, by decide!, by decide!⟩

/-- C8. A `Season Year` term-header line sets the parser state and yields
no record itself, and course lines before any header get the sentinel date —
but a course line after a term header does **not** yield a record bearing that
term: `strptime(current_term, "%B %Y")` rejects season names (they are not
month names), the `ValueError` is swallowed, and the record is dropped
entirely. -/
theorem term_header_records_dropped :
    (matchStr termPattern "Fall 2023").isSome = true ∧
    strptimeMonthYear "Fall 2023" = none ∧
    parse_transcript headerText = [] ∧
    parse_transcript "CHEM 151 General Chemistry I 4.00 A" =
      [⟨"CHEM 151", "General Chemistry I", 4, "A", sentinelDate, none⟩] := by
  refine ⟨by decide!, by decide!, by decide!, by decide!⟩

/-- C9. The cumulative GPA is invariant under permutation of the course
list: its numerator and denominator are sums over the list. -/
theorem cumulative_gpa_perm (l₁ l₂ : List Course) (h : l₁.Perm l₂) :
    calculate_gpa l₁ = calculate_gpa l₂ := by
  rw [calculate_gpa_eq, calculate_gpa_eq,
    resolvedPoints_perm h, resolvedCredits_perm h]

/-- Witness for C9 on a concrete two-element swap. -/
theorem cumulative_gpa_perm_witness :
    calculate_gpa [aCourse, zCourse] = calculate_gpa [zCourse, aCourse] :=
  cumulative_gpa_perm [aCourse, zCourse] [zCourse, aCourse] (by decide!)

/-- C10. In `app.py`'s grade scale the tokens `P`, `TP`, `Y`, `W`, `T`,
`CR` all map to quality points `0.0`, so their scale lookup succeeds; a record
bearing one of them (normalized like the pipeline does) adds its credits to
the GPA denominator and nothing to the numerator, strictly lowering any
positive GPA rather than being excluded as unresolvable. -/
theorem zero_point_grades :
    (∀ tok ∈ (["P", "TP", "Y", "W", "T", "CR"] : List String),
      List.lookup tok GRADE_TO_POINTS = some 0) ∧
    (∀ (rows : List Row) (c : Row),
      c.grade ∈ (["P", "TP", "Y", "W", "T", "CR"] : List String) →
      c.gradePoints = (List.lookup c.grade GRADE_TO_POINTS).getD 0 →
      totalRowCredits (rows ++ [c]) = totalRowCredits rows + c.credits ∧
      totalRowPoints (rows ++ [c]) = totalRowPoints rows ∧
      (0 < totalRowCredits rows → 0 < c.credits → 0 < totalRowPoints rows →
        recent_gpa (rows ++ [c]) < recent_gpa rows)) := by
  constructor
  · decide!
  · intro rows c hmem hgp
    have hlook : List.lookup c.grade GRADE_TO_POINTS = some 0 := by
      simp only [List.mem_cons, List.not_mem_nil, or_false] at hmem
      rcases hmem with h | h | h | h | h | h <;> rw [h] <;> decide!
    have h0 : c.gradePoints = 0 := by rw [hgp, hlook]; rfl
    have hcr : totalRowCredits (rows ++ [c]) = totalRowCredits rows + c.credits := by
      simp [totalRowCredits]
    have hqp : totalRowPoints (rows ++ [c]) = totalRowPoints rows := by
      simp [totalRowPoints, h0]
    refine ⟨hcr, hqp, ?_⟩
    intro htc hc htp
    have htc' : 0 < totalRowCredits (rows ++ [c]) := by rw [hcr]; linarith
    rw [recent_gpa, recent_gpa, if_pos htc, if_pos htc', hcr, hqp]
    exact div_lt_div_of_pos_left htp htc (by linarith)

/-- Witness for C10: adding a 3-credit `P`-graded row to a 4-credit `A` row
drops the computed GPA. -/
theorem zero_point_grades_witness :
    recent_gpa ([⟨"BIO 201", "Anatomy", 4, "A", 4⟩] ++ [⟨"NUR 100", "t", 3, "P", 0⟩]) <
      recent_gpa [⟨"BIO 201", "Anatomy", 4, "A", 4⟩] :=
  ((zero_point_grades.2 [⟨"BIO 201", "Anatomy", 4, "A", 4⟩] ⟨"NUR 100", "t", 3, "P", 0⟩
      (by decide!) (by decide!)).2.2 (by decide!) (by decide!) (by decide!))
